import Mathlib

/-!
Verification of the credential-disclosure detector, the report-section
parsing pass, and the session turn handler of the phishing-awareness
repository.  Text is modelled as `List Char`; the ASCII character classes
of the source patterns are modelled with the ASCII classifiers
`Char.isAlpha` / `Char.isDigit`.
-/

namespace Phishing

/-! ## Disclosure detector (`check_for_credentials` in `phishing_chatbot.py`) -/

/-- The symbol class `[@$!%*?&]` of the password pattern. -/
def pwSymbols : List Char := ['@', '$', '!', '%', '*', '?', '&']

/-- The character class `[A-Za-z0-9@$!%*?&]` of the password pattern. -/
def isPwChar (c : Char) : Bool := c.isAlpha || c.isDigit || pwSymbols.contains c

/-- The characters matched by `.` in an un-flagged Python pattern stop at a
newline; `lineFrom s i` is the part of `s` from position `i` up to (and
excluding) the first newline at or after `i`, the region the three
lookaheads of the password pattern can inspect. -/
def lineFrom (s : List Char) (i : Nat) : List Char :=
  (s.drop i).takeWhile (fun c => c != '\n')

/-- Whether the password pattern
`(?=.*[A-Za-z])(?=.*[0-9])(?=.*[@$!%*?&])[A-Za-z0-9@$!%*?&]{8,}`
matches at position `i` of `s`: eight password characters must start at
`i`, and the rest of the line from `i` must contain a letter, a digit and
a symbol (each lookahead scans `.*X` from `i`, so it is scoped to the
line, not to the matched token). -/
def pwOkAt (s : List Char) (i : Nat) : Bool :=
  decide (i + 8 ≤ s.length)
    && ((s.drop i).take 8).all isPwChar
    && (lineFrom s i).any (fun c => c.isAlpha)
    && (lineFrom s i).any (fun c => c.isDigit)
    && (lineFrom s i).any (fun c => pwSymbols.contains c)

/-- Search of the password pattern: a match exists at some position. -/
def check_password (s : List Char) : Bool :=
  (List.range (s.length + 1)).any (pwOkAt s)

/-- The local-part class `[a-zA-Z0-9._%+-]` of the email pattern. -/
def localChars (c : Char) : Bool :=
  c.isAlpha || c.isDigit || (['.', '_', '%', '+', '-'] : List Char).contains c

/-- The domain class `[a-zA-Z0-9.-]` of the email pattern. -/
def domainChars (c : Char) : Bool :=
  c.isAlpha || c.isDigit || c == '.' || c == '-'

/-- Whether the email pattern `[a-zA-Z0-9._%+-]+@[a-zA-Z0-9.-]+\.[a-zA-Z]{2,}`
has a match placing its `@` at position `i` and the dot before the
top-level label at position `q`: a local character immediately before the
`@`, a non-empty run of domain characters strictly between `i` and `q`,
and two letters after the dot (one local character and two letters are
enough for a match to exist, since `+` and `{2,}` only bound the runs
from below). -/
def emailOk (s : List Char) (i q : Nat) : Bool :=
  decide (1 ≤ i) && decide (i + 1 < q) && decide (q + 2 < s.length)
    && (s.getD i ' ' == '@') && localChars (s.getD (i - 1) ' ')
    && ((s.drop (i + 1)).take (q - (i + 1))).all domainChars
    && (s.getD q ' ' == '.')
    && (s.getD (q + 1) ' ').isAlpha && (s.getD (q + 2) ' ').isAlpha

/-- Search of the email pattern: a match exists at some placement. -/
def check_email (s : List Char) : Bool :=
  (List.range s.length).any (fun i => (List.range s.length).any (emailOk s i))

/-- Embedding of `check_for_credentials`: `has_email and has_password`. -/
def check_for_credentials (s : List Char) : Bool :=
  check_email s && check_password s

/-- The `DisclosureResult` view of the detector:
`(hasIdentifier, hasSecret)`. -/
def detect (s : List Char) : Bool × Bool := (check_email s, check_password s)

/-- Modelled from the spec: the secret check as the spec words it — some
contiguous token of length at least 8 drawn from the password character
class that itself contains a letter, a digit and a symbol.  The
enumeration ranges over every contiguous substring of `s`. -/
def claimSecretCheck (s : List Char) : Bool :=
  (List.range (s.length + 1)).any (fun i =>
    (List.range (s.length + 1)).any (fun n =>
      decide (8 ≤ ((s.drop i).take n).length)
        && ((s.drop i).take n).all isPwChar
        && ((s.drop i).take n).any (fun c => c.isAlpha)
        && ((s.drop i).take n).any (fun c => c.isDigit)
        && ((s.drop i).take n).any (fun c => pwSymbols.contains c)))

/-- The corrected reading of the secret check: a position with eight
consecutive password characters whose rest-of-line contains a letter, a
digit and a symbol. -/
def looseSecretProp (s : List Char) : Prop :=
  ∃ i, i + 8 ≤ s.length
    ∧ (∀ c ∈ (s.drop i).take 8, isPwChar c = true)
    ∧ (∃ c ∈ lineFrom s i, c.isAlpha = true)
    ∧ (∃ c ∈ lineFrom s i, c.isDigit = true)
    ∧ (∃ c ∈ lineFrom s i, pwSymbols.contains c = true)

/-! ## Report-section parsing (the Analyze Message handler in
`phishing_detector.py`) -/

/-- Python whitespace recognised by `str.strip` (ASCII part). -/
def pyIsSpace (c : Char) : Bool :=
  c == ' ' || c == '\t' || c == '\n' || c == '\r' || c == '\x0b' || c == '\x0c'

/-- Python `str.strip()`: drop leading and trailing whitespace. -/
def pyStrip (s : List Char) : List Char :=
  ((s.dropWhile pyIsSpace).reverse.dropWhile pyIsSpace).reverse

/-- Python `result.split("\n\n")`: split on each leftmost non-overlapping
occurrence of a blank line, keeping empty pieces, always at least one
piece. -/
def splitBlank : List Char → List (List Char)
  | [] => [[]]
  | '\n' :: '\n' :: rest => [] :: splitBlank rest
  | c :: rest =>
    match splitBlank rest with
    | [] => [[c]]
    | curr :: others => (c :: curr) :: others

/-- Python `s.lower()` (ASCII part). -/
def lowerStr (s : List Char) : List Char := s.map Char.toLower

/-- Python `pat in s`: `pat` occurs as a contiguous substring of `s`. -/
def hasSub (pat s : List Char) : Bool :=
  (List.range (s.length + 1)).any (fun i => pat.isPrefixOf (s.drop i))

/-- Case-insensitive substring containment, as the spec words it. -/
def containsCI (s pat : List Char) : Prop :=
  ∃ t u, lowerStr s = t ++ lowerStr pat ++ u

/-- The conclusion highlight test:
`"phishing" in text.lower() and not "not a phishing" in text.lower()`. -/
def isPhishingVerdict (body : List Char) : Bool :=
  hasSub (("phishing").toList) (lowerStr body)
    && !(hasSub (("not a phishing").toList) (lowerStr body))

def labelAnalysis : List Char := ("Analysis:").toList

def labelConclusion : List Char := ("Conclusion:").toList

def labelRecommendation : List Char := ("Recommendation:").toList

/-- One rendered section of the analysis result. -/
inductive ReportSection
  | analysis (body : List Char)
  | conclusion (body : List Char) (verdict : Bool)
  | recommendation (body : List Char)
deriving DecidableEq

/-- The per-section branch of the display loop: a case-sensitive
`startswith` test against each label in order, then a slice and a strip.
The source slices `section[9:]`, `section[11:]` and `section[14:]`; the
first two slice off exactly the label, while `"Recommendation:"` has 15
characters, so the third keeps the final `:` of the label. -/
def classifySection (sec : List Char) : Option ReportSection :=
  if labelAnalysis.isPrefixOf sec then
    some (ReportSection.analysis (pyStrip (sec.drop 9)))
  else if labelConclusion.isPrefixOf sec then
    some (ReportSection.conclusion (pyStrip (sec.drop 11))
      (isPhishingVerdict (pyStrip (sec.drop 11))))
  else if labelRecommendation.isPrefixOf sec then
    some (ReportSection.recommendation (pyStrip (sec.drop 14)))
  else
    none

/-- The display loop over the blank-line-separated pieces of the raw model
output; pieces matching no label are skipped. -/
def parseSections (raw : List Char) : List ReportSection :=
  (splitBlank raw).filterMap classifySection

/-- Whether some blank-line-separated piece of the raw output starts with
one of the three labels. -/
def hasAnyLabel (raw : List Char) : Bool :=
  (splitBlank raw).any (fun sec =>
    labelAnalysis.isPrefixOf sec || labelConclusion.isPrefixOf sec
      || labelRecommendation.isPrefixOf sec)

/-- The handler wraps the rendering pass in a `try`/`except`, but the
string operations of the section loop (split, startswith, slice, strip,
lower, containment) cannot raise, so the run always returns a normal
result; the error branch of this embedding is unreachable. -/
def runParse (raw : List Char) : Except (List Char) (List ReportSection) :=
  Except.ok (parseSections raw)

/-! ## Session turn handler (`main` in `phishing_chatbot.py`) -/

/-- A LangChain chat message. -/
inductive Msg
  | system (content : List Char)
  | human (content : List Char)
  | ai (content : List Char)
deriving DecidableEq

/-- The system message text of `generate_response`. -/
def systemPromptContent : List Char :=
  ("\n            You are an AI simulating an Phishing attack for employee awareness purposes. You are posing as an IT Support Analyst. \n            Your goal is to to coax the user to reveal their login credentials under the pretext of resolving their issue. \n            Use the conversation history provided to create a realistic and persuasive response, innovating new reasons to convince the user. \n            In every iteration, you should try a new tactic to convince the user to share their credentials. \n            Also, add there may be untoward consequences if the user does not comply.\n            The new message generated should not sound repeatitive and be diverse. \n            ").toList

/-- Embedding of `generate_response`, with the LLM call abstracted as
`llm`.  Each stored history entry is a dict with both a `user` and a
`bot` key, so the membership test in the source always selects the user
text and every history entry is forwarded as a human message. -/
def generate_response (llm : List Msg → List Char)
    (history : List (List Char × List Char)) (input : List Char) : List Char :=
  llm (Msg.system systemPromptContent
    :: (history.map (fun t => Msg.human t.1) ++ [Msg.human input]))

/-- The persistent `st.session_state` fields of the chatbot. -/
structure SessionState where
  history : List (List Char × List Char)
  attempts : Nat
  credentialsRevealed : Bool
deriving DecidableEq

/-- The zero-valued fields installed on first load. -/
def initialState : SessionState := ⟨[], 0, false⟩

/-- The outcome of one processed submission: the handler either stops
with the compromise warning, stops with the survival message, or renders
the history and keeps the session going. -/
inductive Outcome
  | active
  | compromisedEnd
  | survivedEnd
deriving DecidableEq

/-- The body of `if user_input:` in `main`, run once per submitted turn:
set the revealed flag if the detector fires, generate a bot response from
the prior history and the input, append the exchange, increment
`attempts`, then test the revealed flag and the attempt count. -/
def step (llm : List Msg → List Char) (s : SessionState) (input : List Char) :
    SessionState × Outcome :=
  let revealed := if check_for_credentials input then true else s.credentialsRevealed
  let bot := generate_response llm s.history input
  let history := s.history ++ [(input, bot)]
  let attempts := s.attempts + 1
  (⟨history, attempts, revealed⟩,
    if revealed then Outcome.compromisedEnd
    else if 4 ≤ attempts then Outcome.survivedEnd
    else Outcome.active)

/-! ## Helper lemmas -/

/-- Substring containment agrees with an explicit decomposition. -/
theorem hasSub_iff (pat s : List Char) :
    hasSub pat s = true ↔ ∃ t u, s = t ++ pat ++ u := by
  unfold hasSub
  rw [List.any_eq_true]
  constructor
  · rintro ⟨i, hi, hp⟩
    rw [List.isPrefixOf_iff_prefix] at hp
    obtain ⟨u, hu⟩ := hp
    refine ⟨s.take i, u, ?_⟩
    rw [List.append_assoc, hu, List.take_append_drop]
  · rintro ⟨t, u, rfl⟩
    refine ⟨t.length, ?_, ?_⟩
    · rw [List.mem_range]
      simp [List.length_append]
      omega
    · rw [List.isPrefixOf_iff_prefix]
      refine ⟨u, ?_⟩
      rw [List.append_assoc, List.drop_left]

/-- A piece is classified to no section exactly when it matches none of
the three label tests. -/
theorem classifySection_eq_none (sec : List Char) :
    classifySection sec = none
      ↔ (labelAnalysis.isPrefixOf sec || labelConclusion.isPrefixOf sec
          || labelRecommendation.isPrefixOf sec) = false := by
  unfold classifySection
  by_cases h1 : labelAnalysis.isPrefixOf sec = true
  · simp [h1]
  · rw [Bool.not_eq_true] at h1
    by_cases h2 : labelConclusion.isPrefixOf sec = true
    · simp [h1, h2]
    · rw [Bool.not_eq_true] at h2
      by_cases h3 : labelRecommendation.isPrefixOf sec = true
      · simp [h1, h2, h3]
      · rw [Bool.not_eq_true] at h3
        simp [h1, h2, h3]

/-- A non-disclosing turn from an uncompromised state keeps the flag
down, increments the counter, and ends only by exhausting attempts. -/
theorem step_no_disclosure (llm : List Msg → List Char) (s : SessionState)
    (input : List Char) (h : check_for_credentials input = false)
    (hr : s.credentialsRevealed = false) :
    (step llm s input).1.credentialsRevealed = false
      ∧ (step llm s input).1.attempts = s.attempts + 1
      ∧ (step llm s input).2
          = (if 4 ≤ s.attempts + 1 then Outcome.survivedEnd else Outcome.active) := by
  simp [step, h, hr]

/-! ## Claim C1 -/

/-- C1 counterexample: the secret check fires on a text whose only
eight-character token is all digits, because the lookahead conjunction is
satisfied by a letter and a symbol outside the token; the spec-worded
token-scoped check rejects it. -/
theorem c1_counterexample :
    check_password (("12345678 x!").toList) = true
      ∧ claimSecretCheck (("12345678 x!").toList) = false := by
  exact ⟨by decide, by decide⟩

/-- C1 (amended): the secret check succeeds exactly when some position
starts eight consecutive password-class characters and the rest of that
line (not merely the token) contains at least one letter, one digit and
one symbol of the set. -/
theorem c1_amended (s : List Char) : check_password s = true ↔ looseSecretProp s := by
  simp only [check_password, pwOkAt, looseSecretProp, List.any_eq_true, List.mem_range,
    Bool.and_eq_true, decide_eq_true_eq, List.all_eq_true]
  constructor
  · rintro ⟨i, hi, ⟨⟨⟨⟨h8, hall⟩, ha⟩, hd⟩, hsym⟩⟩
    exact ⟨i, h8, hall, ha, hd, hsym⟩
  · rintro ⟨i, h8, hall, ha, hd, hsym⟩
    exact ⟨i, by omega, ⟨⟨⟨⟨h8, hall⟩, ha⟩, hd⟩, hsym⟩⟩

/-! ## Claim C2 -/

/-- C2 counterexample: a raw output containing none of the three labels
is not surfaced as a typed failure; the handler returns normally with no
rendered section. -/
theorem c2_counterexample :
    hasAnyLabel (("garbled nonsense with no labels").toList) = false
      ∧ runParse (("garbled nonsense with no labels").toList)
          = Except.ok ([] : List ReportSection) :=
  ⟨by decide, rfl⟩

/-- C2 (amended): the handler never fails on any raw output; it renders
an empty section list exactly when no blank-line-separated piece starts
with one of the three labels, and otherwise renders the matching
sections while ignoring the rest. -/
theorem c2_amended (raw : List Char) :
    runParse raw = Except.ok (parseSections raw)
      ∧ (parseSections raw = [] ↔ hasAnyLabel raw = false) := by
  refine ⟨rfl, ?_⟩
  unfold parseSections hasAnyLabel
  rw [List.filterMap_eq_nil_iff, List.any_eq_false]
  constructor
  · intro h sec hs
    have hn := (classifySection_eq_none sec).mp (h sec hs)
    simp [hn]
  · intro h sec hs
    refine (classifySection_eq_none sec).mpr ?_
    exact Bool.eq_false_iff.mpr (h sec hs)

/-! ## Claim C3 -/

/-- C3: evaluating the section pass at a recommendation section shows
that the extracted body keeps the final colon of the label, because the
source slices off only 14 of the 15 label characters. -/
theorem c3_recommendation_label_kept :
    parseSections (("Recommendation:\ndelete it").toList)
      = [ReportSection.recommendation ((":\ndelete it").toList)] := by
  decide

/-! ## Claim C6 -/

/-- C6: the phishing verdict on a conclusion body is true exactly when
the body contains the substring phishing case-insensitively and does not
contain the substring not a phishing case-insensitively. -/
theorem c6_verdict (body : List Char) :
    isPhishingVerdict body = true
      ↔ containsCI body (("phishing").toList)
          ∧ ¬ containsCI body (("not a phishing").toList) := by
  have hp : lowerStr (("phishing").toList) = ("phishing").toList := by decide
  have hn : lowerStr (("not a phishing").toList) = ("not a phishing").toList := by decide
  unfold isPhishingVerdict containsCI
  rw [hp, hn, ← hasSub_iff, ← hasSub_iff, Bool.and_eq_true, Bool.not_eq_true']
  constructor
  · rintro ⟨h1, h2⟩
    exact ⟨h1, by rw [h2]; exact Bool.false_ne_true⟩
  · rintro ⟨h1, h2⟩
    exact ⟨h1, Bool.eq_false_iff.mpr h2⟩

/-! ## Claim C7 -/

/-- C7: the detector result is the conjunction of the identifier check
and the secret check; the empty string yields both checks false, and an
identifier without a qualifying secret is not a disclosure. -/
theorem c7_detect (s : List Char) :
    check_for_credentials s = ((detect s).1 && (detect s).2)
      ∧ detect ([] : List Char) = (false, false)
      ∧ check_for_credentials ([] : List Char) = false
      ∧ ((detect s).2 = false → check_for_credentials s = false) := by
  refine ⟨rfl, by decide, by decide, ?_⟩
  intro h
  simp only [detect] at h
  simp [check_for_credentials, h]

/-- C7 witness: instantiated at a bare email address, which has an
identifier but no qualifying secret. -/
theorem c7_witness :
    check_for_credentials (("a@b.co").toList)
        = ((detect (("a@b.co").toList)).1 && (detect (("a@b.co").toList)).2)
      ∧ detect ([] : List Char) = (false, false)
      ∧ check_for_credentials ([] : List Char) = false
      ∧ check_for_credentials (("a@b.co").toList) = false := by
  have h := c7_detect (("a@b.co").toList)
  exact ⟨h.1, h.2.1, h.2.2.1, h.2.2.2 (by decide)⟩

/-! ## Claim C4 -/

/-- A concrete disclosing submission: an email address next to a strong
token. -/
def discloseInput : List Char := ("a@b.co Aa1!Aa1!").toList

/-- C4 counterexample: on a disclosure turn from the fresh session the
handler does end the session as compromised, yet the attempts counter is
incremented to 1 rather than staying at its pre-increment value 0. -/
theorem c4_counterexample :
    check_for_credentials discloseInput = true
      ∧ (step (fun _ => []) initialState discloseInput).2 = Outcome.compromisedEnd
      ∧ (step (fun _ => []) initialState discloseInput).1.attempts = 1 := by
  decide

/-- C4 (amended): the detector runs on the new text before the counter
is touched, and the compromise test takes precedence over the survival
test, so a disclosure on any turn yields the compromised end; the
attempts counter is nevertheless still incremented by one on that
turn. -/
theorem c4_amended (llm : List Msg → List Char) (s : SessionState)
    (input : List Char) (h : check_for_credentials input = true) :
    (step llm s input).2 = Outcome.compromisedEnd
      ∧ (step llm s input).1.attempts = s.attempts + 1
      ∧ (step llm s input).1.credentialsRevealed = true := by
  simp [step, h]

/-- C4 witness: the amended statement instantiated at the fresh session
and the concrete disclosing input. -/
theorem c4_witness :
    (step (fun _ => []) initialState discloseInput).2 = Outcome.compromisedEnd
      ∧ (step (fun _ => []) initialState discloseInput).1.attempts
          = initialState.attempts + 1
      ∧ (step (fun _ => []) initialState discloseInput).1.credentialsRevealed = true :=
  c4_amended (fun _ => []) initialState discloseInput (by decide)

/-! ## Claim C5 -/

/-- The session state right after a compromising first turn. -/
def postCompromiseState : SessionState :=
  (step (fun _ => []) initialState discloseInput).1

/-- C5 counterexample: after a turn that ended as compromised, a further
submission is still processed: the history grows by one exchange and the
attempts counter is incremented again. -/
theorem c5_counterexample :
    (step (fun _ => []) initialState discloseInput).2 = Outcome.compromisedEnd
      ∧ postCompromiseState.credentialsRevealed = true
      ∧ (step (fun _ => []) postCompromiseState (("hello").toList)).1.attempts
          = postCompromiseState.attempts + 1
      ∧ (step (fun _ => []) postCompromiseState (("hello").toList)).1.history.length
          = postCompromiseState.history.length + 1 := by
  decide

/-- C5 (amended): nothing guards a submission arriving after a terminal
outcome: the turn is processed like any other, appending one exchange,
incrementing the counter and invoking generation; since the revealed
flag persists and the counter never decreases, such a turn again ends in
a terminal outcome rather than returning the session to active. -/
theorem c5_amended (llm : List Msg → List Char) (s : SessionState) (input : List Char)
    (h : s.credentialsRevealed = true ∨ 4 ≤ s.attempts) :
    (step llm s input).1.history
        = s.history ++ [(input, generate_response llm s.history input)]
      ∧ (step llm s input).1.attempts = s.attempts + 1
      ∧ (step llm s input).2 ≠ Outcome.active := by
  refine ⟨rfl, rfl, ?_⟩
  rcases h with h | h
  · by_cases hc : check_for_credentials input = true
    · simp [step, hc]
    · rw [Bool.not_eq_true] at hc
      simp [step, hc, h]
  · by_cases hc : check_for_credentials input = true
    · simp [step, hc]
    · rw [Bool.not_eq_true] at hc
      by_cases hr : s.credentialsRevealed = true
      · simp [step, hc, hr]
      · rw [Bool.not_eq_true] at hr
        have h4 : 4 ≤ s.attempts + 1 := by omega
        simp [step, hc, hr, h4]

/-- C5 witness: the amended statement instantiated at the state reached
after a compromising first turn. -/
theorem c5_witness :
    (step (fun _ => []) postCompromiseState (("hello").toList)).1.history
        = postCompromiseState.history
            ++ [((("hello").toList),
                generate_response (fun _ => []) postCompromiseState.history
                  (("hello").toList))]
      ∧ (step (fun _ => []) postCompromiseState (("hello").toList)).1.attempts
          = postCompromiseState.attempts + 1
      ∧ (step (fun _ => []) postCompromiseState (("hello").toList)).2 ≠ Outcome.active :=
  c5_amended (fun _ => []) postCompromiseState (("hello").toList) (Or.inl (by decide))

/-! ## Claim C8 -/

/-- C8: from the fresh session, four consecutive non-disclosing turns
stay active for the first three and reach the survived end exactly on
the fourth, with the counter at four. -/
theorem c8_survival (llm : List Msg → List Char) (i1 i2 i3 i4 : List Char)
    (h1 : check_for_credentials i1 = false) (h2 : check_for_credentials i2 = false)
    (h3 : check_for_credentials i3 = false) (h4 : check_for_credentials i4 = false) :
    (step llm initialState i1).2 = Outcome.active
      ∧ (step llm (step llm initialState i1).1 i2).2 = Outcome.active
      ∧ (step llm (step llm (step llm initialState i1).1 i2).1 i3).2 = Outcome.active
      ∧ (step llm (step llm (step llm (step llm initialState i1).1 i2).1 i3).1 i4).2
          = Outcome.survivedEnd
      ∧ 4 ≤ (step llm (step llm (step llm (step llm initialState i1).1 i2).1 i3).1
          i4).1.attempts := by
  have ha0 : initialState.attempts = 0 := rfl
  obtain ⟨r1, a1, o1⟩ := step_no_disclosure llm initialState i1 h1 rfl
  obtain ⟨r2, a2, o2⟩ := step_no_disclosure llm _ i2 h2 r1
  obtain ⟨r3, a3, o3⟩ := step_no_disclosure llm _ i3 h3 r2
  obtain ⟨r4, a4, o4⟩ := step_no_disclosure llm _ i4 h4 r3
  rw [ha0] at a1
  rw [a1] at a2 o2
  rw [a2] at a3 o3
  rw [a3] at a4 o4
  rw [ha0] at o1
  norm_num at o1 o2 o3 o4
  exact ⟨o1, o2, o3, o4, by rw [a4]⟩

/-- C8 witness: four concrete non-disclosing submissions. -/
theorem c8_witness :
    (step (fun _ => []) initialState (("hello").toList)).2 = Outcome.active
      ∧ (step (fun _ => []) (step (fun _ => []) initialState (("hello").toList)).1
          (("hello").toList)).2 = Outcome.active
      ∧ (step (fun _ => []) (step (fun _ => []) (step (fun _ => []) initialState
          (("hello").toList)).1 (("hello").toList)).1 (("hello").toList)).2
          = Outcome.active
      ∧ (step (fun _ => []) (step (fun _ => []) (step (fun _ => [])
          (step (fun _ => []) initialState (("hello").toList)).1
          (("hello").toList)).1 (("hello").toList)).1 (("hello").toList)).2
          = Outcome.survivedEnd
      ∧ 4 ≤ (step (fun _ => []) (step (fun _ => []) (step (fun _ => [])
          (step (fun _ => []) initialState (("hello").toList)).1
          (("hello").toList)).1 (("hello").toList)).1 (("hello").toList)).1.attempts :=
  c8_survival (fun _ => []) (("hello").toList) (("hello").toList) (("hello").toList)
    (("hello").toList) (by decide) (by decide) (by decide) (by decide)

/-! ## Claim C9 -/

/-- C9: every processed submission appends exactly one exchange built
from the input and the generated reply, increments the counter by
exactly one, and the end-of-session tests are evaluated on the already
incremented counter. -/
theorem c9_mutation (llm : List Msg → List Char) (s : SessionState) (input : List Char) :
    (step llm s input).1.history
        = s.history ++ [(input, generate_response llm s.history input)]
      ∧ (step llm s input).1.attempts = s.attempts + 1
      ∧ ((step llm s input).2 = Outcome.survivedEnd
          ↔ ((if check_for_credentials input then true else s.credentialsRevealed) = false
              ∧ 4 ≤ s.attempts + 1)) := by
  refine ⟨rfl, rfl, ?_⟩
  by_cases hc : check_for_credentials input = true
  · simp [step, hc]
  · rw [Bool.not_eq_true] at hc
    by_cases hr : s.credentialsRevealed = true
    · simp [step, hc, hr]
    · rw [Bool.not_eq_true] at hr
      by_cases h4 : 4 ≤ s.attempts + 1
      · simp [step, hc, hr, h4]
      · simp [step, hc, hr, h4]

/-! ## Claim C10 -/

/-- C10: the generation collaborator is invoked on every processed
submission, a disclosure turn included: the appended exchange carries
the reply of `llm` to the system prompt, the prior user turns, and the
disclosing text itself, and only then does the session end as
compromised. -/
theorem c10_generate_on_disclosure (llm : List Msg → List Char) (s : SessionState)
    (input : List Char) (h : check_for_credentials input = true) :
    (step llm s input).1.history.getLast?
        = some (input, llm (Msg.system systemPromptContent
            :: (s.history.map (fun t => Msg.human t.1) ++ [Msg.human input])))
      ∧ (step llm s input).2 = Outcome.compromisedEnd := by
  constructor
  · show (s.history ++ [(input, generate_response llm s.history input)]).getLast? = _
    rw [List.getLast?_concat]
    rfl
  · simp [step, h]

/-- C10 witness: instantiated at the fresh session and the concrete
disclosing input. -/
theorem c10_witness :
    (step (fun _ => []) initialState discloseInput).1.history.getLast?
        = some (discloseInput,
            (fun (_ : List Msg) => ([] : List Char)) (Msg.system systemPromptContent
              :: (initialState.history.map (fun t => Msg.human t.1)
                  ++ [Msg.human discloseInput])))
      ∧ (step (fun _ => []) initialState discloseInput).2 = Outcome.compromisedEnd :=
  c10_generate_on_disclosure (fun _ => []) initialState discloseInput (by decide)

end Phishing
